import Mathlib

/-!
Shallow embedding of the recognizer configuration, validation and dispatch
layer of sherpa-onnx (file sherpa-onnx/python/sherpa_onnx/offline_recognizer.py),
together with theorems checking the natural-language specification of that
layer against the code.

Python integers are modelled as Int, Python floats that are only carried
around (never computed with) as Rat, Python strings as String.  A Python
function that can raise ValueError is modelled as returning Except PyError.
Configuration objects coming from the pybind11 binding (not part of the
Python file) are modelled as structures whose constructor defaults are the
empty values described by the spec (sub-configurations absent/empty unless
populated).
-/

namespace SherpaOnnx

/-- Feature Extraction Parameters: expected sampling rate and feature
dimensionality, as passed to the binding by the recipes. -/
structure FeatureExtractorConfig where
  sampling_rate : Int
  feature_dim : Int
deriving DecidableEq, Repr

/-- Transducer payload: encoder/decoder/joiner model paths. -/
structure OfflineTransducerModelConfig where
  encoder_filename : String := ""
  decoder_filename : String := ""
  joiner_filename : String := ""
deriving DecidableEq, Repr

/-- Paraformer payload: a single combined model path. -/
structure OfflineParaformerModelConfig where
  model : String := ""
deriving DecidableEq, Repr

/-- NeMo CTC payload: a single combined model path. -/
structure OfflineNemoEncDecCtcModelConfig where
  model : String := ""
deriving DecidableEq, Repr

/-- Whisper payload: encoder/decoder paths plus language, task and
tail-padding options. -/
structure OfflineWhisperModelConfig where
  encoder : String := ""
  decoder : String := ""
  language : String := ""
  task : String := ""
  tail_paddings : Int := -1
deriving DecidableEq, Repr

/-- TDNN payload: a single combined model path. -/
structure OfflineTdnnModelConfig where
  model : String := ""
deriving DecidableEq, Repr

/-- SenseVoice payload: model path plus language and inverse text
normalization flag. -/
structure OfflineSenseVoiceModelConfig where
  model : String := ""
  language : String := ""
  use_itn : Bool := false
deriving DecidableEq, Repr

/-- Moonshine payload: preprocessor, encoder and two decoder paths. -/
structure OfflineMoonshineModelConfig where
  preprocessor : String := ""
  encoder : String := ""
  uncached_decoder : String := ""
  cached_decoder : String := ""
deriving DecidableEq, Repr

/-- Wenet CTC payload: a single combined model path. -/
structure OfflineWenetCtcModelConfig where
  model : String := ""
deriving DecidableEq, Repr

/-- Zipformer CTC payload (imported by the Python file, populated by no
recipe there): a single combined model path. -/
structure OfflineZipformerCtcModelConfig where
  model : String := ""
deriving DecidableEq, Repr

/-- Model Configuration Union: one slot per architecture-specific payload
(the TeleSpeech payload is a bare model-path string in the binding), plus the
shared fields the recipes pass (token-table path, thread count, debug flag,
execution provider, hotword tokenization options, and the redundant
architecture label model_type).  Defaults are the empty values of the spec. -/
structure OfflineModelConfig where
  transducer : OfflineTransducerModelConfig := {}
  paraformer : OfflineParaformerModelConfig := {}
  nemo_ctc : OfflineNemoEncDecCtcModelConfig := {}
  whisper : OfflineWhisperModelConfig := {}
  tdnn : OfflineTdnnModelConfig := {}
  zipformer_ctc : OfflineZipformerCtcModelConfig := {}
  wenet_ctc : OfflineWenetCtcModelConfig := {}
  sense_voice : OfflineSenseVoiceModelConfig := {}
  moonshine : OfflineMoonshineModelConfig := {}
  telespeech_ctc : String := ""
  tokens : String := ""
  num_threads : Int := 1
  debug : Bool := false
  provider : String := "cpu"
  modeling_unit : String := ""
  bpe_vocab : String := ""
  model_type : String := ""
deriving DecidableEq, Repr

/-- Language Model Configuration: model path (empty means disabled),
rescoring weight, thread count and provider. -/
structure OfflineLMConfig where
  model : String := ""
  scale : Rat := 1/2
  lm_num_threads : Int := 1
  lm_provider : String := "cpu"
deriving DecidableEq, Repr

/-- Recognizer Configuration Aggregate: the immutable bundle handed to the
inference engine constructor. -/
structure OfflineRecognizerConfig where
  feat_config : FeatureExtractorConfig
  model_config : OfflineModelConfig
  lm_config : OfflineLMConfig := {}
  decoding_method : String := "greedy_search"
  max_active_paths : Int := 4
  hotwords_file : String := ""
  hotwords_score : Rat := 3/2
  blank_penalty : Rat := 0
  rule_fsts : String := ""
  rule_fars : String := ""
deriving DecidableEq, Repr

/-- A Python exception raised by the layer. -/
inductive PyError where
  | valueError (msg : String)
deriving DecidableEq, Repr

/-- Modelled from the spec: the inference engine constructor (the binding
class aliased as a private recognizer name in the Python file) takes the
aggregate and returns an opaque engine handle; here the handle records the
aggregate it was constructed from. -/
structure EngineHandle where
  builtFrom : OfflineRecognizerConfig
deriving DecidableEq, Repr

/-- The Python-level recognizer object: an engine handle (field
`recognizer`) plus the aggregate (field `config`), as stored by every
recipe before returning. -/
structure OfflineRecognizer where
  recognizer : EngineHandle
  config : OfflineRecognizerConfig
deriving DecidableEq, Repr

/-- The helper at the top of the Python file: asserts that the path is an
existing file.  It is defined there but invoked by no recipe; the
filesystem is modelled as a predicate on paths. -/
def assert_file_exists (is_file : String → Bool) (f : String) : Except PyError Unit :=
  if is_file f then Except.ok () else
    Except.error (PyError.valueError (f ++ " does not exist"))

/-- Arguments of the recipe from_transducer, with the Python default values. -/
structure TransducerArgs where
  encoder : String
  decoder : String
  joiner : String
  tokens : String
  num_threads : Int := 1
  sample_rate : Int := 16000
  feature_dim : Int := 80
  decoding_method : String := "greedy_search"
  max_active_paths : Int := 4
  hotwords_file : String := ""
  hotwords_score : Rat := 3/2
  blank_penalty : Rat := 0
  modeling_unit : String := "cjkchar"
  bpe_vocab : String := ""
  debug : Bool := false
  provider : String := "cpu"
  model_type : String := "transducer"
  rule_fsts : String := ""
  rule_fars : String := ""
  lm : String := ""
  lm_scale : Rat := 1/10
deriving DecidableEq, Repr

/-- The error message raised by from_transducer when a hotwords file is
given with a decoding method other than modified_beam_search. -/
def hotwordsFileMsg (decoding_method : String) : String :=
  "Please use --decoding-method=modified_beam_search when using " ++
    "--hotwords-file. Currently given: " ++ decoding_method

/-- The error message raised by from_transducer when a language model is
given with a decoding method other than modified_beam_search. -/
def lmMsg (decoding_method : String) : String :=
  "Please use --decoding-method=modified_beam_search when using " ++
    "--lm. Currently given: " ++ decoding_method

/-- Recipe from_transducer: builds the transducer model configuration and
feature configuration, raises ValueError on a hotwords-file or
language-model conflict with the decoding method, then assembles the
aggregate and hands it to the engine constructor. -/
def from_transducer (a : TransducerArgs) : Except PyError OfflineRecognizer :=
  let model_config : OfflineModelConfig :=
    { transducer :=
        { encoder_filename := a.encoder
          decoder_filename := a.decoder
          joiner_filename := a.joiner }
      tokens := a.tokens
      num_threads := a.num_threads
      debug := a.debug
      provider := a.provider
      modeling_unit := a.modeling_unit
      bpe_vocab := a.bpe_vocab
      model_type := a.model_type }
  let feat_config : FeatureExtractorConfig :=
    { sampling_rate := a.sample_rate
      feature_dim := a.feature_dim }
  if a.hotwords_file.length > 0 ∧ a.decoding_method ≠ "modified_beam_search" then
    Except.error (PyError.valueError (hotwordsFileMsg a.decoding_method))
  else if a.lm ≠ "" ∧ a.decoding_method ≠ "modified_beam_search" then
    Except.error (PyError.valueError (lmMsg a.decoding_method))
  else
    let lm_config : OfflineLMConfig :=
      { model := a.lm
        scale := a.lm_scale
        lm_num_threads := a.num_threads
        lm_provider := a.provider }
    let recognizer_config : OfflineRecognizerConfig :=
      { feat_config := feat_config
        model_config := model_config
        lm_config := lm_config
        decoding_method := a.decoding_method
        max_active_paths := a.max_active_paths
        hotwords_file := a.hotwords_file
        hotwords_score := a.hotwords_score
        blank_penalty := a.blank_penalty
        rule_fsts := a.rule_fsts
        rule_fars := a.rule_fars }
    Except.ok { recognizer := { builtFrom := recognizer_config }
                config := recognizer_config }

/-- Arguments of the recipe from_sense_voice, with the Python default values. -/
structure SenseVoiceArgs where
  model : String
  tokens : String
  num_threads : Int := 1
  sample_rate : Int := 16000
  feature_dim : Int := 80
  decoding_method : String := "greedy_search"
  debug : Bool := false
  provider : String := "cpu"
  language : String := ""
  use_itn : Bool := false
  rule_fsts : String := ""
  rule_fars : String := ""
deriving DecidableEq, Repr

/-- Recipe from_sense_voice: populates the SenseVoice payload (no
model_type label is passed), builds the feature configuration from the
caller arguments, assembles the aggregate and hands it to the engine. -/
def from_sense_voice (a : SenseVoiceArgs) : Except PyError OfflineRecognizer :=
  let model_config : OfflineModelConfig :=
    { sense_voice :=
        { model := a.model
          language := a.language
          use_itn := a.use_itn }
      tokens := a.tokens
      num_threads := a.num_threads
      debug := a.debug
      provider := a.provider }
  let feat_config : FeatureExtractorConfig :=
    { sampling_rate := a.sample_rate
      feature_dim := a.feature_dim }
  let recognizer_config : OfflineRecognizerConfig :=
    { feat_config := feat_config
      model_config := model_config
      decoding_method := a.decoding_method
      rule_fsts := a.rule_fsts
      rule_fars := a.rule_fars }
  Except.ok { recognizer := { builtFrom := recognizer_config }
              config := recognizer_config }

/-- Arguments of the recipe from_paraformer, with the Python default values. -/
structure ParaformerArgs where
  paraformer : String
  tokens : String
  num_threads : Int := 1
  sample_rate : Int := 16000
  feature_dim : Int := 80
  decoding_method : String := "greedy_search"
  debug : Bool := false
  provider : String := "cpu"
  rule_fsts : String := ""
  rule_fars : String := ""
deriving DecidableEq, Repr

/-- Recipe from_paraformer: populates the Paraformer payload with label
"paraformer", builds the feature configuration from the caller arguments,
assembles the aggregate and hands it to the engine. -/
def from_paraformer (a : ParaformerArgs) : Except PyError OfflineRecognizer :=
  let model_config : OfflineModelConfig :=
    { paraformer := { model := a.paraformer }
      tokens := a.tokens
      num_threads := a.num_threads
      debug := a.debug
      provider := a.provider
      model_type := "paraformer" }
  let feat_config : FeatureExtractorConfig :=
    { sampling_rate := a.sample_rate
      feature_dim := a.feature_dim }
  let recognizer_config : OfflineRecognizerConfig :=
    { feat_config := feat_config
      model_config := model_config
      decoding_method := a.decoding_method
      rule_fsts := a.rule_fsts
      rule_fars := a.rule_fars }
  Except.ok { recognizer := { builtFrom := recognizer_config }
              config := recognizer_config }

/-- Arguments of the recipe from_telespeech_ctc, with the Python default
values (note the default feature_dim is 40 but the default sample_rate is
16000). -/
structure TelespeechArgs where
  model : String
  tokens : String
  num_threads : Int := 1
  sample_rate : Int := 16000
  feature_dim : Int := 40
  decoding_method : String := "greedy_search"
  debug : Bool := false
  provider : String := "cpu"
  rule_fsts : String := ""
  rule_fars : String := ""
deriving DecidableEq, Repr

/-- Recipe from_telespeech_ctc: populates the TeleSpeech payload (a bare
model-path string) with label "nemo_ctc", builds the feature configuration
from the caller arguments (its docstring notes the values are ignored and
hard-coded downstream), assembles the aggregate and hands it to the
engine. -/
def from_telespeech_ctc (a : TelespeechArgs) : Except PyError OfflineRecognizer :=
  let model_config : OfflineModelConfig :=
    { telespeech_ctc := a.model
      tokens := a.tokens
      num_threads := a.num_threads
      debug := a.debug
      provider := a.provider
      model_type := "nemo_ctc" }
  let feat_config : FeatureExtractorConfig :=
    { sampling_rate := a.sample_rate
      feature_dim := a.feature_dim }
  let recognizer_config : OfflineRecognizerConfig :=
    { feat_config := feat_config
      model_config := model_config
      decoding_method := a.decoding_method
      rule_fsts := a.rule_fsts
      rule_fars := a.rule_fars }
  Except.ok { recognizer := { builtFrom := recognizer_config }
              config := recognizer_config }

/-- Arguments of the recipe from_nemo_ctc, with the Python default values. -/
structure NemoCtcArgs where
  model : String
  tokens : String
  num_threads : Int := 1
  sample_rate : Int := 16000
  feature_dim : Int := 80
  decoding_method : String := "greedy_search"
  debug : Bool := false
  provider : String := "cpu"
  rule_fsts : String := ""
  rule_fars : String := ""
deriving DecidableEq, Repr

/-- Recipe from_nemo_ctc: populates the NeMo CTC payload with label
"nemo_ctc", builds the feature configuration from the caller arguments,
assembles the aggregate and hands it to the engine. -/
def from_nemo_ctc (a : NemoCtcArgs) : Except PyError OfflineRecognizer :=
  let model_config : OfflineModelConfig :=
    { nemo_ctc := { model := a.model }
      tokens := a.tokens
      num_threads := a.num_threads
      debug := a.debug
      provider := a.provider
      model_type := "nemo_ctc" }
  let feat_config : FeatureExtractorConfig :=
    { sampling_rate := a.sample_rate
      feature_dim := a.feature_dim }
  let recognizer_config : OfflineRecognizerConfig :=
    { feat_config := feat_config
      model_config := model_config
      decoding_method := a.decoding_method
      rule_fsts := a.rule_fsts
      rule_fars := a.rule_fars }
  Except.ok { recognizer := { builtFrom := recognizer_config }
              config := recognizer_config }

/-- Arguments of the recipe from_whisper, with the Python default values
(no sample_rate or feature_dim parameter exists). -/
structure WhisperArgs where
  encoder : String
  decoder : String
  tokens : String
  language : String := "en"
  task : String := "transcribe"
  num_threads : Int := 1
  decoding_method : String := "greedy_search"
  debug : Bool := false
  provider : String := "cpu"
  tail_paddings : Int := -1
  rule_fsts : String := ""
  rule_fars : String := ""
deriving DecidableEq, Repr

/-- Recipe from_whisper: populates the Whisper payload with label
"whisper", hard-codes the feature configuration to sampling rate 16000 and
feature dimension 80, assembles the aggregate and hands it to the engine. -/
def from_whisper (a : WhisperArgs) : Except PyError OfflineRecognizer :=
  let model_config : OfflineModelConfig :=
    { whisper :=
        { encoder := a.encoder
          decoder := a.decoder
          language := a.language
          task := a.task
          tail_paddings := a.tail_paddings }
      tokens := a.tokens
      num_threads := a.num_threads
      debug := a.debug
      provider := a.provider
      model_type := "whisper" }
  let feat_config : FeatureExtractorConfig :=
    { sampling_rate := 16000
      feature_dim := 80 }
  let recognizer_config : OfflineRecognizerConfig :=
    { feat_config := feat_config
      model_config := model_config
      decoding_method := a.decoding_method
      rule_fsts := a.rule_fsts
      rule_fars := a.rule_fars }
  Except.ok { recognizer := { builtFrom := recognizer_config }
              config := recognizer_config }

/-- Arguments of the recipe from_moonshine, with the Python default values
(no sample_rate or feature_dim parameter exists). -/
structure MoonshineArgs where
  preprocessor : String
  encoder : String
  uncached_decoder : String
  cached_decoder : String
  tokens : String
  num_threads : Int := 1
  decoding_method : String := "greedy_search"
  debug : Bool := false
  provider : String := "cpu"
  rule_fsts : String := ""
  rule_fars : String := ""
deriving DecidableEq, Repr

/-- Recipe from_moonshine: populates the Moonshine payload (no model_type
label is passed), hard-codes an unused feature configuration of sampling
rate 16000 and feature dimension 80, assembles the aggregate and hands it
to the engine. -/
def from_moonshine (a : MoonshineArgs) : Except PyError OfflineRecognizer :=
  let model_config : OfflineModelConfig :=
    { moonshine :=
        { preprocessor := a.preprocessor
          encoder := a.encoder
          uncached_decoder := a.uncached_decoder
          cached_decoder := a.cached_decoder }
      tokens := a.tokens
      num_threads := a.num_threads
      debug := a.debug
      provider := a.provider }
  let unused_feat_config : FeatureExtractorConfig :=
    { sampling_rate := 16000
      feature_dim := 80 }
  let recognizer_config : OfflineRecognizerConfig :=
    { feat_config := unused_feat_config
      model_config := model_config
      decoding_method := a.decoding_method
      rule_fsts := a.rule_fsts
      rule_fars := a.rule_fars }
  Except.ok { recognizer := { builtFrom := recognizer_config }
              config := recognizer_config }

/-- Arguments of the recipe from_tdnn_ctc, with the Python default values. -/
structure TdnnCtcArgs where
  model : String
  tokens : String
  num_threads : Int := 1
  sample_rate : Int := 8000
  feature_dim : Int := 23
  decoding_method : String := "greedy_search"
  debug : Bool := false
  provider : String := "cpu"
  rule_fsts : String := ""
  rule_fars : String := ""
deriving DecidableEq, Repr

/-- Recipe from_tdnn_ctc: populates the TDNN payload with label "tdnn",
builds the feature configuration from the caller arguments, assembles the
aggregate and hands it to the engine. -/
def from_tdnn_ctc (a : TdnnCtcArgs) : Except PyError OfflineRecognizer :=
  let model_config : OfflineModelConfig :=
    { tdnn := { model := a.model }
      tokens := a.tokens
      num_threads := a.num_threads
      debug := a.debug
      provider := a.provider
      model_type := "tdnn" }
  let feat_config : FeatureExtractorConfig :=
    { sampling_rate := a.sample_rate
      feature_dim := a.feature_dim }
  let recognizer_config : OfflineRecognizerConfig :=
    { feat_config := feat_config
      model_config := model_config
      decoding_method := a.decoding_method
      rule_fsts := a.rule_fsts
      rule_fars := a.rule_fars }
  Except.ok { recognizer := { builtFrom := recognizer_config }
              config := recognizer_config }

/-- Arguments of the recipe from_wenet_ctc, with the Python default values. -/
structure WenetCtcArgs where
  model : String
  tokens : String
  num_threads : Int := 1
  sample_rate : Int := 16000
  feature_dim : Int := 80
  decoding_method : String := "greedy_search"
  debug : Bool := false
  provider : String := "cpu"
  rule_fsts : String := ""
  rule_fars : String := ""
deriving DecidableEq, Repr

/-- Recipe from_wenet_ctc: populates the Wenet CTC payload with label
"wenet_ctc", builds the feature configuration from the caller arguments,
assembles the aggregate and hands it to the engine. -/
def from_wenet_ctc (a : WenetCtcArgs) : Except PyError OfflineRecognizer :=
  let model_config : OfflineModelConfig :=
    { wenet_ctc := { model := a.model }
      tokens := a.tokens
      num_threads := a.num_threads
      debug := a.debug
      provider := a.provider
      model_type := "wenet_ctc" }
  let feat_config : FeatureExtractorConfig :=
    { sampling_rate := a.sample_rate
      feature_dim := a.feature_dim }
  let recognizer_config : OfflineRecognizerConfig :=
    { feat_config := feat_config
      model_config := model_config
      decoding_method := a.decoding_method
      rule_fsts := a.rule_fsts
      rule_fars := a.rule_fars }
  Except.ok { recognizer := { builtFrom := recognizer_config }
              config := recognizer_config }

/-- The call that the method create_stream makes on the engine handle:
either the no-argument stream creation or the one-argument creation with a
per-stream hotwords string. -/
inductive EngineStreamCall where
  | createNoArg
  | createWithHotwords (hotwords : String)
deriving DecidableEq, Repr

/-- The method create_stream of the Python class: with hotwords equal to
None it delegates to the no-argument engine stream creation, otherwise it
passes the string (empty or not) through to the one-argument creation. -/
def create_stream (self : OfflineRecognizer) (hotwords : Option String) : EngineStreamCall :=
  match hotwords with
  | Option.none => EngineStreamCall.createNoArg
  | Option.some hw => EngineStreamCall.createWithHotwords hw

/-- A decoding stream: the audio samples appended to it (samples are
modelled as integers, their numeric meaning is irrelevant to this layer)
and the optional decoding result filled in by a decode operation. -/
structure OfflineStream where
  samples : List Int
  result : Option String := Option.none
deriving DecidableEq, Repr

/-- Modelled from the spec: the single-stream decode of the inference
engine (not part of the Python file) runs the full pipeline on the audio of
one stream and fills in its result; the pipeline itself is an arbitrary
deterministic function decodeFn of the audio. -/
def engineDecodeStream (decodeFn : List Int → String) (s : OfflineStream) : OfflineStream :=
  { s with result := Option.some (decodeFn s.samples) }

/-- Modelled from the spec: the batch decode of the inference engine (not
part of the Python file) decodes each supplied stream, results ordered as
the streams were supplied, each identical to an independent single-stream
decode. -/
def engineDecodeStreams (decodeFn : List Int → String) (ss : List OfflineStream) : List OfflineStream :=
  ss.map (engineDecodeStream decodeFn)

/-- The method decode_stream of the Python class: pure delegation to the
single-stream decode of the engine. -/
def decode_stream (decodeFn : List Int → String) (s : OfflineStream) : OfflineStream :=
  engineDecodeStream decodeFn s

/-- The method decode_streams of the Python class: pure delegation to the
batch decode of the engine. -/
def decode_streams (decodeFn : List Int → String) (ss : List OfflineStream) : List OfflineStream :=
  engineDecodeStreams decodeFn ss

/-- Modelled from the spec: the C++ engine hard-codes the feature
parameters of the TeleSpeech architecture to sampling rate 40 and feature
dimension 40 (the docstring of from_telespeech_ctc records this); for the
other architectures the aggregate values stand. -/
def engineResolvedFeat (cfg : OfflineRecognizerConfig) : FeatureExtractorConfig :=
  if cfg.model_config.telespeech_ctc ≠ "" then
    { sampling_rate := 40, feature_dim := 40 }
  else cfg.feat_config

/-- Whether a recipe run produced a recognizer (true) or raised (false). -/
def isOkRun (x : Except PyError OfflineRecognizer) : Bool :=
  match x with
  | Except.ok _ => true
  | Except.error _ => false

/-- The model configuration of a successful recipe run. -/
def modelConfigOf (x : Except PyError OfflineRecognizer) : Option OfflineModelConfig :=
  match x with
  | Except.ok r => Option.some r.config.model_config
  | Except.error _ => Option.none

/-- The token-table path of a successful recipe run. -/
def tokensOf (x : Except PyError OfflineRecognizer) : Option String :=
  match x with
  | Except.ok r => Option.some r.config.model_config.tokens
  | Except.error _ => Option.none

/-- The feature configuration of a successful recipe run. -/
def featOf (x : Except PyError OfflineRecognizer) : Option FeatureExtractorConfig :=
  match x with
  | Except.ok r => Option.some r.config.feat_config
  | Except.error _ => Option.none

/-- The decoding method stored in the aggregate of a successful run. -/
def decodingMethodOf (x : Except PyError OfflineRecognizer) : Option String :=
  match x with
  | Except.ok r => Option.some r.config.decoding_method
  | Except.error _ => Option.none

/-- Non-emptiness of the transducer payload: some model path is set. -/
def OfflineTransducerModelConfig.nonEmpty (c : OfflineTransducerModelConfig) : Bool :=
  c.encoder_filename ≠ "" ∨ c.decoder_filename ≠ "" ∨ c.joiner_filename ≠ ""

/-- Non-emptiness of the paraformer payload. -/
def OfflineParaformerModelConfig.nonEmpty (c : OfflineParaformerModelConfig) : Bool :=
  c.model ≠ ""

/-- Non-emptiness of the NeMo CTC payload. -/
def OfflineNemoEncDecCtcModelConfig.nonEmpty (c : OfflineNemoEncDecCtcModelConfig) : Bool :=
  c.model ≠ ""

/-- Non-emptiness of the whisper payload: some model path is set. -/
def OfflineWhisperModelConfig.nonEmpty (c : OfflineWhisperModelConfig) : Bool :=
  c.encoder ≠ "" ∨ c.decoder ≠ ""

/-- Non-emptiness of the TDNN payload. -/
def OfflineTdnnModelConfig.nonEmpty (c : OfflineTdnnModelConfig) : Bool :=
  c.model ≠ ""

/-- Non-emptiness of the zipformer CTC payload. -/
def OfflineZipformerCtcModelConfig.nonEmpty (c : OfflineZipformerCtcModelConfig) : Bool :=
  c.model ≠ ""

/-- Non-emptiness of the wenet CTC payload. -/
def OfflineWenetCtcModelConfig.nonEmpty (c : OfflineWenetCtcModelConfig) : Bool :=
  c.model ≠ ""

/-- Non-emptiness of the SenseVoice payload. -/
def OfflineSenseVoiceModelConfig.nonEmpty (c : OfflineSenseVoiceModelConfig) : Bool :=
  c.model ≠ ""

/-- Non-emptiness of the moonshine payload: some model path is set. -/
def OfflineMoonshineModelConfig.nonEmpty (c : OfflineMoonshineModelConfig) : Bool :=
  c.preprocessor ≠ "" ∨ c.encoder ≠ "" ∨ c.uncached_decoder ≠ "" ∨ c.cached_decoder ≠ ""

/-- The number of non-empty architecture-specific payloads of a Model
Configuration Union (the TeleSpeech payload is its bare string). -/
def payloadCount (m : OfflineModelConfig) : Nat :=
  (if m.transducer.nonEmpty then 1 else 0) +
  (if m.paraformer.nonEmpty then 1 else 0) +
  (if m.nemo_ctc.nonEmpty then 1 else 0) +
  (if m.whisper.nonEmpty then 1 else 0) +
  (if m.tdnn.nonEmpty then 1 else 0) +
  (if m.zipformer_ctc.nonEmpty then 1 else 0) +
  (if m.wenet_ctc.nonEmpty then 1 else 0) +
  (if m.sense_voice.nonEmpty then 1 else 0) +
  (if m.moonshine.nonEmpty then 1 else 0) +
  (if m.telespeech_ctc ≠ "" then 1 else 0)

/-- The condition under which from_transducer raises: a hotwords file or a
language model together with a decoding method other than
modified_beam_search. -/
def transducerConflict (a : TransducerArgs) : Bool :=
  (a.hotwords_file.length > 0 ∧ a.decoding_method ≠ "modified_beam_search") ∨
  (a.lm ≠ "" ∧ a.decoding_method ≠ "modified_beam_search")

/-- The classmethod constructors exposed by the OfflineRecognizer class in
the source file, in source order; each is embedded above under the same
name. -/
def factoryEntryPoints : List String :=
  ["from_transducer", "from_sense_voice", "from_paraformer",
   "from_telespeech_ctc", "from_nemo_ctc", "from_whisper",
   "from_moonshine", "from_tdnn_ctc", "from_wenet_ctc"]

/-- The instance methods exposed by the OfflineRecognizer class in the
source file for stream creation, single decode and batch decode. -/
def streamOps : List String :=
  ["create_stream", "decode_stream", "decode_streams"]

/-- The engine-resolved feature configuration of a successful recipe run. -/
def resolvedFeatOf (x : Except PyError OfflineRecognizer) : Option FeatureExtractorConfig :=
  match x with
  | Except.ok r => Option.some (engineResolvedFeat r.config)
  | Except.error _ => Option.none

/-- A non-empty string has positive length. -/
theorem length_pos_of_ne_empty {s : String} (h : s ≠ "") : 0 < s.length := by
  rcases s with ⟨data⟩
  cases data with
  | nil => exact absurd rfl h
  | cons c cs => simp [String.length]

/-- Concrete transducer arguments used by witnesses. -/
def t0 : TransducerArgs :=
  { encoder := "enc.onnx", decoder := "dec.onnx", joiner := "joiner.onnx",
    tokens := "tokens.txt" }

/-- Concrete transducer arguments with an unrecognized decoding method. -/
def t_fake : TransducerArgs :=
  { encoder := "enc.onnx", decoder := "dec.onnx", joiner := "joiner.onnx",
    tokens := "tokens.txt", decoding_method := "fake_method" }

/-- Concrete paraformer arguments with an unrecognized decoding method. -/
def p_fake : ParaformerArgs :=
  { paraformer := "model.onnx", tokens := "tokens.txt",
    decoding_method := "fake_method" }

/-- Concrete telespeech arguments with deliberately unusual caller-supplied
feature parameters. -/
def ts1 : TelespeechArgs :=
  { model := "model.onnx", tokens := "tokens.txt",
    sample_rate := 12345, feature_dim := 7 }

/-- Claim C1: for the recipe that accepts these parameters (from_transducer
is the only one with hotwords_file and lm arguments), a non-empty
hotwords_file together with a decoding method other than
modified_beam_search makes construction fail with a ValueError naming the
method, and no recognizer is returned; likewise a non-empty language-model
path lm. -/
theorem C1_hotword_lm_conflicts_fail (a : TransducerArgs)
    (hm : a.decoding_method ≠ "modified_beam_search") :
    (a.hotwords_file ≠ "" →
      from_transducer a =
        Except.error (PyError.valueError (hotwordsFileMsg a.decoding_method))) ∧
    (a.hotwords_file = "" → a.lm ≠ "" →
      from_transducer a =
        Except.error (PyError.valueError (lmMsg a.decoding_method))) ∧
    (a.lm ≠ "" → isOkRun (from_transducer a) = false) := by
  refine ⟨?_, ?_, ?_⟩
  · intro hw
    have hlen : 0 < a.hotwords_file.length := length_pos_of_ne_empty hw
    simp only [from_transducer]
    rw [if_pos ⟨hlen, hm⟩]
  · intro hw hlm
    have hlen : ¬ 0 < a.hotwords_file.length := by simp [hw]
    simp only [from_transducer]
    rw [if_neg (fun hc => hlen hc.1), if_pos ⟨hlm, hm⟩]
  · intro hlm
    by_cases hw : 0 < a.hotwords_file.length ∧ a.decoding_method ≠ "modified_beam_search"
    · simp only [from_transducer, isOkRun]
      rw [if_pos hw]
    · simp only [from_transducer, isOkRun]
      rw [if_neg hw, if_pos ⟨hlm, hm⟩]

/-- Witness for C1 at concrete inputs: hotwords file "hw.txt" with
greedy_search fails with the hotwords error, and language model "lm.onnx"
with empty hotwords fails with the language-model error. -/
theorem C1_hotword_lm_conflicts_fail_witness :
    (from_transducer { t0 with hotwords_file := "hw.txt" } =
      Except.error (PyError.valueError (hotwordsFileMsg "greedy_search"))) ∧
    (from_transducer { t0 with lm := "lm.onnx" } =
      Except.error (PyError.valueError (lmMsg "greedy_search"))) ∧
    isOkRun (from_transducer { t0 with lm := "lm.onnx" }) = false := by
  refine ⟨?_, ?_, ?_⟩
  · exact (C1_hotword_lm_conflicts_fail { t0 with hotwords_file := "hw.txt" }
      (by decide)).1 (by decide)
  · exact (C1_hotword_lm_conflicts_fail { t0 with lm := "lm.onnx" }
      (by decide)).2.1 (by decide) (by decide)
  · exact (C1_hotword_lm_conflicts_fail { t0 with lm := "lm.onnx" }
      (by decide)).2.2 (by decide)

/-- Claim C6: from_whisper and from_moonshine build the feature
configuration with sampling rate 16000 and feature dimension 80 for every
input (neither recipe even has sample_rate or feature_dim parameters). -/
theorem C6_whisper_moonshine_feat_fixed :
    (∀ a : WhisperArgs, featOf (from_whisper a) =
      Option.some { sampling_rate := 16000, feature_dim := 80 }) ∧
    (∀ a : MoonshineArgs, featOf (from_moonshine a) =
      Option.some { sampling_rate := 16000, feature_dim := 80 }) :=
  ⟨fun _ => rfl, fun _ => rfl⟩

/-- Claim C7 counterexample: the class does not expose eleven construction
entry points; the list of classmethod constructors in the source has
length nine. -/
theorem C7_counterexample : factoryEntryPoints.length ≠ 11 := by decide

/-- Claim C7 (amended): the layer exposes exactly nine distinct named
construction entry points, together with the stream-creation, single-decode
and batch-decode operations. -/
theorem C7_nine_entry_points :
    factoryEntryPoints.length = 9 ∧ factoryEntryPoints.Nodup ∧
    streamOps = ["create_stream", "decode_stream", "decode_streams"] ∧
    streamOps.length = 3 :=
  ⟨rfl, by decide, rfl, rfl⟩

/-- Claim C10: create_stream with no hotwords argument (None) delegates to
the no-argument engine stream creation, while any string argument,
including the empty string, is passed through as a per-stream hotword
override; so None and the empty string are treated differently. -/
theorem C10_create_stream_none_vs_empty :
    (∀ r : OfflineRecognizer, create_stream r Option.none = EngineStreamCall.createNoArg) ∧
    (∀ r : OfflineRecognizer, ∀ s : String,
      create_stream r (Option.some s) = EngineStreamCall.createWithHotwords s) ∧
    (∀ r : OfflineRecognizer,
      create_stream r (Option.some "") = EngineStreamCall.createWithHotwords "" ∧
      create_stream r (Option.some "") ≠ create_stream r Option.none) := by
  refine ⟨fun r => rfl, fun r s => rfl, fun r => ⟨rfl, by simp [create_stream]⟩⟩

/-- Claim C3: for every caller-supplied sample_rate and feature_dim (the
model path being a non-empty string), from_telespeech_ctc yields a
recognizer whose engine-resolved feature parameters are the fixed values
40 and 40, independent of the caller-supplied arguments; the resolution is
modelled from the spec since the hard-coding lives in the C++ engine. -/
theorem C3_telespeech_feat_resolved_40_40 (a : TelespeechArgs) (h : a.model ≠ "") :
    resolvedFeatOf (from_telespeech_ctc a) =
      Option.some { sampling_rate := 40, feature_dim := 40 } := by
  simp [resolvedFeatOf, from_telespeech_ctc, engineResolvedFeat, h]

/-- Witness for C3 at concrete inputs: caller-supplied sample rate 12345
and feature dimension 7 are still resolved to 40 and 40. -/
theorem C3_telespeech_feat_resolved_40_40_witness :
    resolvedFeatOf (from_telespeech_ctc ts1) =
      Option.some { sampling_rate := 40, feature_dim := 40 } :=
  C3_telespeech_feat_resolved_40_40 ts1 (by decide)

/-- A filesystem model in which no path is an existing file. -/
def fsEmpty : String → Bool := fun _ => false

/-- Claim C4 counterexample: under a filesystem in which the token-table
path "tokens.txt" is not an existing file, from_transducer still returns a
recognizer and hands the aggregate to the engine constructor; the helper
assert_file_exists, which would have rejected the path, is invoked by no
recipe, so construction does not fail. -/
theorem C4_counterexample :
    fsEmpty "tokens.txt" = false ∧
    assert_file_exists fsEmpty "tokens.txt" =
      Except.error (PyError.valueError "tokens.txt does not exist") ∧
    t0.tokens = "tokens.txt" ∧
    isOkRun (from_transducer t0) = true := by
  refine ⟨rfl, rfl, rfl, by decide⟩

/-- Claim C4 (amended): no recipe checks the token-table path against the
filesystem; whatever string is supplied is passed through unchanged into
the aggregate handed to the engine constructor (the only failing paths are
the hotword/language-model conflicts of from_transducer). -/
theorem C4_token_path_passed_through_unchecked :
    (∀ a : TransducerArgs, tokensOf (from_transducer a) =
      if transducerConflict a then Option.none else Option.some a.tokens) ∧
    (∀ a : SenseVoiceArgs, tokensOf (from_sense_voice a) = Option.some a.tokens) ∧
    (∀ a : ParaformerArgs, tokensOf (from_paraformer a) = Option.some a.tokens) ∧
    (∀ a : TelespeechArgs, tokensOf (from_telespeech_ctc a) = Option.some a.tokens) ∧
    (∀ a : NemoCtcArgs, tokensOf (from_nemo_ctc a) = Option.some a.tokens) ∧
    (∀ a : WhisperArgs, tokensOf (from_whisper a) = Option.some a.tokens) ∧
    (∀ a : MoonshineArgs, tokensOf (from_moonshine a) = Option.some a.tokens) ∧
    (∀ a : TdnnCtcArgs, tokensOf (from_tdnn_ctc a) = Option.some a.tokens) ∧
    (∀ a : WenetCtcArgs, tokensOf (from_wenet_ctc a) = Option.some a.tokens) := by
  refine ⟨?_, fun a => rfl, fun a => rfl, fun a => rfl, fun a => rfl,
    fun a => rfl, fun a => rfl, fun a => rfl, fun a => rfl⟩
  intro a
  by_cases h1 : 0 < a.hotwords_file.length ∧ a.decoding_method ≠ "modified_beam_search"
  · simp [from_transducer, transducerConflict, tokensOf, h1]
  · by_cases h2 : a.lm ≠ "" ∧ a.decoding_method ≠ "modified_beam_search"
    · have h0 : ¬ 0 < a.hotwords_file.length := fun h0 => h1 ⟨h0, h2.2⟩
      simp [from_transducer, transducerConflict, tokensOf, h2, h0]
    · simp [from_transducer, transducerConflict, tokensOf, h1, h2]

/-- Claim C5 counterexample: an unrecognized decoding method string does
not make construction fail; from_transducer with decoding method
"fake_method" (and no hotwords or language model) returns a recognizer. -/
theorem C5_counterexample :
    t_fake.decoding_method ≠ "greedy_search" ∧
    t_fake.decoding_method ≠ "modified_beam_search" ∧
    isOkRun (from_transducer t_fake) = true := by decide

/-- Claim C5 (amended): no recipe validates decoding_method against the
closed set; a string other than greedy_search and modified_beam_search is
passed through unchanged into the aggregate and construction succeeds at
this layer (for from_transducer, provided no hotword or language-model
conflict arises). -/
theorem C5_unrecognized_method_not_rejected (m : String)
    (h1 : m ≠ "greedy_search") (h2 : m ≠ "modified_beam_search") :
    (∀ a : TransducerArgs, a.decoding_method = m → a.hotwords_file = "" → a.lm = "" →
      decodingMethodOf (from_transducer a) = Option.some m) ∧
    (∀ a : SenseVoiceArgs, a.decoding_method = m →
      decodingMethodOf (from_sense_voice a) = Option.some m) ∧
    (∀ a : ParaformerArgs, a.decoding_method = m →
      decodingMethodOf (from_paraformer a) = Option.some m) ∧
    (∀ a : TelespeechArgs, a.decoding_method = m →
      decodingMethodOf (from_telespeech_ctc a) = Option.some m) ∧
    (∀ a : NemoCtcArgs, a.decoding_method = m →
      decodingMethodOf (from_nemo_ctc a) = Option.some m) ∧
    (∀ a : WhisperArgs, a.decoding_method = m →
      decodingMethodOf (from_whisper a) = Option.some m) ∧
    (∀ a : MoonshineArgs, a.decoding_method = m →
      decodingMethodOf (from_moonshine a) = Option.some m) ∧
    (∀ a : TdnnCtcArgs, a.decoding_method = m →
      decodingMethodOf (from_tdnn_ctc a) = Option.some m) ∧
    (∀ a : WenetCtcArgs, a.decoding_method = m →
      decodingMethodOf (from_wenet_ctc a) = Option.some m) := by
  refine ⟨?_, fun a ha => by simp [from_sense_voice, decodingMethodOf, ha],
    fun a ha => by simp [from_paraformer, decodingMethodOf, ha],
    fun a ha => by simp [from_telespeech_ctc, decodingMethodOf, ha],
    fun a ha => by simp [from_nemo_ctc, decodingMethodOf, ha],
    fun a ha => by simp [from_whisper, decodingMethodOf, ha],
    fun a ha => by simp [from_moonshine, decodingMethodOf, ha],
    fun a ha => by simp [from_tdnn_ctc, decodingMethodOf, ha],
    fun a ha => by simp [from_wenet_ctc, decodingMethodOf, ha]⟩
  intro a ha hw hlm
  have hwlen : ¬ 0 < a.hotwords_file.length := by simp [hw]
  simp only [from_transducer, decodingMethodOf]
  rw [if_neg (fun hc => hwlen hc.1), if_neg (fun hc => hc.1 hlm)]
  simp [ha]

/-- Witness for C5 at concrete inputs: the method string "fake_method" is
outside the closed set, yet from_transducer and from_paraformer both
succeed and store it in the aggregate. -/
theorem C5_unrecognized_method_not_rejected_witness :
    decodingMethodOf (from_transducer t_fake) = Option.some "fake_method" ∧
    decodingMethodOf (from_paraformer p_fake) = Option.some "fake_method" :=
  ⟨(C5_unrecognized_method_not_rejected "fake_method" (by decide) (by decide)).1
      t_fake rfl rfl rfl,
   (C5_unrecognized_method_not_rejected "fake_method" (by decide) (by decide)).2.2.1
      p_fake rfl⟩

/-- The number of non-empty payloads of the union of a successful run. -/
def payloadCountOf (x : Except PyError OfflineRecognizer) : Option Nat :=
  (modelConfigOf x).map payloadCount

/-- The architecture label model_type of the union of a successful run. -/
def modelTypeOf (x : Except PyError OfflineRecognizer) : Option String :=
  (modelConfigOf x).map (fun m => m.model_type)

/-- Claim C2 counterexample: the telespeech recipe does not yield a
telespeech architecture label; the union built by from_telespeech_ctc
carries model_type "nemo_ctc", the label of a different architecture. -/
theorem C2_counterexample :
    modelTypeOf (from_telespeech_ctc ts1) = Option.some "nemo_ctc" ∧
    "nemo_ctc" ≠ "telespeech" ∧ "nemo_ctc" ≠ "telespeech_ctc" := by decide

/-- Claim C2 (amended): every recipe populates exactly one non-empty
architecture-specific payload (given a non-empty required model path, and
for from_transducer a conflict-free input), but the label matches the
recipe only for from_transducer (whose label is the caller-controlled
model_type argument, "transducer" by default), from_paraformer,
from_nemo_ctc, from_whisper, from_tdnn_ctc and from_wenet_ctc; the
telespeech recipe labels its union "nemo_ctc", and from_sense_voice and
from_moonshine leave the label empty. -/
theorem C2_one_payload_and_labels :
    (∀ a : TransducerArgs, a.encoder ≠ "" → transducerConflict a = false →
      payloadCountOf (from_transducer a) = Option.some 1 ∧
      modelTypeOf (from_transducer a) = Option.some a.model_type) ∧
    (∀ a : SenseVoiceArgs, a.model ≠ "" →
      payloadCountOf (from_sense_voice a) = Option.some 1 ∧
      modelTypeOf (from_sense_voice a) = Option.some "") ∧
    (∀ a : ParaformerArgs, a.paraformer ≠ "" →
      payloadCountOf (from_paraformer a) = Option.some 1 ∧
      modelTypeOf (from_paraformer a) = Option.some "paraformer") ∧
    (∀ a : TelespeechArgs, a.model ≠ "" →
      payloadCountOf (from_telespeech_ctc a) = Option.some 1 ∧
      modelTypeOf (from_telespeech_ctc a) = Option.some "nemo_ctc") ∧
    (∀ a : NemoCtcArgs, a.model ≠ "" →
      payloadCountOf (from_nemo_ctc a) = Option.some 1 ∧
      modelTypeOf (from_nemo_ctc a) = Option.some "nemo_ctc") ∧
    (∀ a : WhisperArgs, a.encoder ≠ "" →
      payloadCountOf (from_whisper a) = Option.some 1 ∧
      modelTypeOf (from_whisper a) = Option.some "whisper") ∧
    (∀ a : MoonshineArgs, a.preprocessor ≠ "" →
      payloadCountOf (from_moonshine a) = Option.some 1 ∧
      modelTypeOf (from_moonshine a) = Option.some "") ∧
    (∀ a : TdnnCtcArgs, a.model ≠ "" →
      payloadCountOf (from_tdnn_ctc a) = Option.some 1 ∧
      modelTypeOf (from_tdnn_ctc a) = Option.some "tdnn") ∧
    (∀ a : WenetCtcArgs, a.model ≠ "" →
      payloadCountOf (from_wenet_ctc a) = Option.some 1 ∧
      modelTypeOf (from_wenet_ctc a) = Option.some "wenet_ctc") := by
  refine ⟨?_, ?_, ?_, ?_, ?_, ?_, ?_, ?_, ?_⟩
  · intro a hne hc
    simp only [transducerConflict, decide_eq_false_iff_not, not_or] at hc
    simp [payloadCountOf, modelTypeOf, modelConfigOf, from_transducer,
      if_neg hc.1, if_neg hc.2, payloadCount,
      OfflineTransducerModelConfig.nonEmpty, OfflineParaformerModelConfig.nonEmpty,
      OfflineNemoEncDecCtcModelConfig.nonEmpty, OfflineWhisperModelConfig.nonEmpty,
      OfflineTdnnModelConfig.nonEmpty, OfflineZipformerCtcModelConfig.nonEmpty,
      OfflineWenetCtcModelConfig.nonEmpty, OfflineSenseVoiceModelConfig.nonEmpty,
      OfflineMoonshineModelConfig.nonEmpty, hne]
  · intro a hne
    simp [payloadCountOf, modelTypeOf, modelConfigOf, from_sense_voice, payloadCount,
      OfflineTransducerModelConfig.nonEmpty, OfflineParaformerModelConfig.nonEmpty,
      OfflineNemoEncDecCtcModelConfig.nonEmpty, OfflineWhisperModelConfig.nonEmpty,
      OfflineTdnnModelConfig.nonEmpty, OfflineZipformerCtcModelConfig.nonEmpty,
      OfflineWenetCtcModelConfig.nonEmpty, OfflineSenseVoiceModelConfig.nonEmpty,
      OfflineMoonshineModelConfig.nonEmpty, hne]
  · intro a hne
    simp [payloadCountOf, modelTypeOf, modelConfigOf, from_paraformer, payloadCount,
      OfflineTransducerModelConfig.nonEmpty, OfflineParaformerModelConfig.nonEmpty,
      OfflineNemoEncDecCtcModelConfig.nonEmpty, OfflineWhisperModelConfig.nonEmpty,
      OfflineTdnnModelConfig.nonEmpty, OfflineZipformerCtcModelConfig.nonEmpty,
      OfflineWenetCtcModelConfig.nonEmpty, OfflineSenseVoiceModelConfig.nonEmpty,
      OfflineMoonshineModelConfig.nonEmpty, hne]
  · intro a hne
    simp [payloadCountOf, modelTypeOf, modelConfigOf, from_telespeech_ctc, payloadCount,
      OfflineTransducerModelConfig.nonEmpty, OfflineParaformerModelConfig.nonEmpty,
      OfflineNemoEncDecCtcModelConfig.nonEmpty, OfflineWhisperModelConfig.nonEmpty,
      OfflineTdnnModelConfig.nonEmpty, OfflineZipformerCtcModelConfig.nonEmpty,
      OfflineWenetCtcModelConfig.nonEmpty, OfflineSenseVoiceModelConfig.nonEmpty,
      OfflineMoonshineModelConfig.nonEmpty, hne]
  · intro a hne
    simp [payloadCountOf, modelTypeOf, modelConfigOf, from_nemo_ctc, payloadCount,
      OfflineTransducerModelConfig.nonEmpty, OfflineParaformerModelConfig.nonEmpty,
      OfflineNemoEncDecCtcModelConfig.nonEmpty, OfflineWhisperModelConfig.nonEmpty,
      OfflineTdnnModelConfig.nonEmpty, OfflineZipformerCtcModelConfig.nonEmpty,
      OfflineWenetCtcModelConfig.nonEmpty, OfflineSenseVoiceModelConfig.nonEmpty,
      OfflineMoonshineModelConfig.nonEmpty, hne]
  · intro a hne
    simp [payloadCountOf, modelTypeOf, modelConfigOf, from_whisper, payloadCount,
      OfflineTransducerModelConfig.nonEmpty, OfflineParaformerModelConfig.nonEmpty,
      OfflineNemoEncDecCtcModelConfig.nonEmpty, OfflineWhisperModelConfig.nonEmpty,
      OfflineTdnnModelConfig.nonEmpty, OfflineZipformerCtcModelConfig.nonEmpty,
      OfflineWenetCtcModelConfig.nonEmpty, OfflineSenseVoiceModelConfig.nonEmpty,
      OfflineMoonshineModelConfig.nonEmpty, hne]
  · intro a hne
    simp [payloadCountOf, modelTypeOf, modelConfigOf, from_moonshine, payloadCount,
      OfflineTransducerModelConfig.nonEmpty, OfflineParaformerModelConfig.nonEmpty,
      OfflineNemoEncDecCtcModelConfig.nonEmpty, OfflineWhisperModelConfig.nonEmpty,
      OfflineTdnnModelConfig.nonEmpty, OfflineZipformerCtcModelConfig.nonEmpty,
      OfflineWenetCtcModelConfig.nonEmpty, OfflineSenseVoiceModelConfig.nonEmpty,
      OfflineMoonshineModelConfig.nonEmpty, hne]
  · intro a hne
    simp [payloadCountOf, modelTypeOf, modelConfigOf, from_tdnn_ctc, payloadCount,
      OfflineTransducerModelConfig.nonEmpty, OfflineParaformerModelConfig.nonEmpty,
      OfflineNemoEncDecCtcModelConfig.nonEmpty, OfflineWhisperModelConfig.nonEmpty,
      OfflineTdnnModelConfig.nonEmpty, OfflineZipformerCtcModelConfig.nonEmpty,
      OfflineWenetCtcModelConfig.nonEmpty, OfflineSenseVoiceModelConfig.nonEmpty,
      OfflineMoonshineModelConfig.nonEmpty, hne]
  · intro a hne
    simp [payloadCountOf, modelTypeOf, modelConfigOf, from_wenet_ctc, payloadCount,
      OfflineTransducerModelConfig.nonEmpty, OfflineParaformerModelConfig.nonEmpty,
      OfflineNemoEncDecCtcModelConfig.nonEmpty, OfflineWhisperModelConfig.nonEmpty,
      OfflineTdnnModelConfig.nonEmpty, OfflineZipformerCtcModelConfig.nonEmpty,
      OfflineWenetCtcModelConfig.nonEmpty, OfflineSenseVoiceModelConfig.nonEmpty,
      OfflineMoonshineModelConfig.nonEmpty, hne]

/-- Witness for C2 (amended) at concrete inputs: the transducer run keeps
its default label "transducer" and has one non-empty payload; the
telespeech run has one non-empty payload labelled "nemo_ctc". -/
theorem C2_one_payload_and_labels_witness :
    payloadCountOf (from_transducer t0) = Option.some 1 ∧
    modelTypeOf (from_transducer t0) = Option.some "transducer" ∧
    payloadCountOf (from_telespeech_ctc ts1) = Option.some 1 ∧
    modelTypeOf (from_telespeech_ctc ts1) = Option.some "nemo_ctc" := by
  have h1 := C2_one_payload_and_labels.1 t0 (by decide) (by decide)
  have h4 := C2_one_payload_and_labels.2.2.2.1 ts1 (by decide)
  exact ⟨h1.1, h1.2, h4.1, h4.2⟩

/-- Claim C8: batch decoding yields per-stream results in supply order,
each equal to the result of an independent single-stream decode; the
engine operations are modelled from the spec, with an arbitrary
deterministic per-stream pipeline decodeFn. -/
theorem C8_batch_equals_independent (decodeFn : List Int → String)
    (A B C : OfflineStream)
    (hA : A.samples ≠ []) (hB : B.samples ≠ []) (hC : C.samples ≠ []) :
    decode_streams decodeFn [A, B, C] =
      [decode_stream decodeFn A, decode_stream decodeFn B, decode_stream decodeFn C] ∧
    (∀ ss : List OfflineStream,
      decode_streams decodeFn ss = ss.map (decode_stream decodeFn)) :=
  ⟨rfl, fun _ => rfl⟩

/-- A concrete decode pipeline and concrete streams for the C8 witness. -/
def constDecode : List Int → String := fun _ => "text"

/-- A concrete stream with audio appended. -/
def sA : OfflineStream := { samples := [1] }

/-- A concrete stream with audio appended. -/
def sB : OfflineStream := { samples := [2, 3] }

/-- A concrete stream with audio appended. -/
def sC : OfflineStream := { samples := [4] }

/-- Witness for C8 at concrete streams with audio appended. -/
theorem C8_batch_equals_independent_witness :
    decode_streams constDecode [sA, sB, sC] =
      [decode_stream constDecode sA, decode_stream constDecode sB,
       decode_stream constDecode sC] :=
  (C8_batch_equals_independent constDecode sA sB sC
    (by decide) (by decide) (by decide)).1

/-- Claim C9 counterexample: an unrecognized decoding method does not
trigger a configuration error; from_paraformer with decoding method
"fake_method" raises nothing and hands the aggregate to the engine
constructor, which returns a recognizer. -/
theorem C9_counterexample :
    p_fake.decoding_method ≠ "greedy_search" ∧
    p_fake.decoding_method ≠ "modified_beam_search" ∧
    isOkRun (from_paraformer p_fake) = true := by decide

/-- Claim C9 (amended): the configuration errors of this layer are exactly
the hotword/language-model conflicts of from_transducer, raised before the
engine constructor is reached, so on a failing path no engine handle or
recognizer exists; the other eight recipes never raise, and an
unrecognized decoding method raises nowhere. -/
theorem C9_errors_exactly_conflicts :
    (∀ a : TransducerArgs, isOkRun (from_transducer a) = !(transducerConflict a)) ∧
    (∀ a : SenseVoiceArgs, isOkRun (from_sense_voice a) = true) ∧
    (∀ a : ParaformerArgs, isOkRun (from_paraformer a) = true) ∧
    (∀ a : TelespeechArgs, isOkRun (from_telespeech_ctc a) = true) ∧
    (∀ a : NemoCtcArgs, isOkRun (from_nemo_ctc a) = true) ∧
    (∀ a : WhisperArgs, isOkRun (from_whisper a) = true) ∧
    (∀ a : MoonshineArgs, isOkRun (from_moonshine a) = true) ∧
    (∀ a : TdnnCtcArgs, isOkRun (from_tdnn_ctc a) = true) ∧
    (∀ a : WenetCtcArgs, isOkRun (from_wenet_ctc a) = true) := by
  refine ⟨?_, fun a => rfl, fun a => rfl, fun a => rfl, fun a => rfl,
    fun a => rfl, fun a => rfl, fun a => rfl, fun a => rfl⟩
  intro a
  by_cases h1 : 0 < a.hotwords_file.length ∧ a.decoding_method ≠ "modified_beam_search"
  · simp [from_transducer, transducerConflict, isOkRun, h1]
  · by_cases h2 : a.lm ≠ "" ∧ a.decoding_method ≠ "modified_beam_search"
    · have h0 : ¬ 0 < a.hotwords_file.length := fun h0 => h1 ⟨h0, h2.2⟩
      simp [from_transducer, transducerConflict, isOkRun, h2, h0]
    · simp [from_transducer, transducerConflict, isOkRun, h1, h2]

end SherpaOnnx
